import Mathlib

/-!
Verification development for the fastjson repository (json.hh plus its
implementation file).  The JSON value model, the Reader's lexing helpers and
the Writer's serialization helpers are shallowly embedded as executable Lean
definitions translated from the C++ source, and the specification's claims
about them are settled as theorems.

Modelling conventions:
* `std::string` is modelled as `List Char` (the byte/character sequence).
* `TInteger` (C `int`) is modelled as `Int`, `TUInteger` (C `unsigned int`)
  as `Nat`; wrap-around is applied explicitly where the source casts.
* `TReal` (C `double`) is modelled as `Rat`; the only operations the claims
  exercise on reals are exact widenings from 32-bit integers.
* Fallible code (C++ `throw`) is modelled with `Except`.
* `std::map` (key-sorted) is modelled as a key-sorted association list.
-/

namespace Fastjson

/-- Type ids used by Value (`enum Type` in json.hh; `Type` is a Lean keyword,
hence the name `JType`).  Constructor names follow the source enumerators. -/
inductive JType where
  | TINTEGER
  | TUINTEGER
  | TREAL
  | TBOOL
  | TSTRING
  | TOBJECT
  | TARRAY
  | TNULL
deriving DecidableEq, Repr, Fintype

/-- The JSON Value container (class `Value` in json.hh).  The C++ class is a
tagged union whose tag (`type`) and active union member are kept consistent by
construction; that invariant is structural in this inductive: each constructor
is one consistent (tag, payload) pair. -/
inductive Value where
  | integer (i : Int)
  | uinteger (u : Nat)
  | real (r : Rat)
  | boolean (b : Bool)
  | string (s : List Char)
  | object (m : List (List Char × Value))
  | array (a : List Value)
  | null
deriving Repr

/-- `Value::getType` — the current tag of the Value. -/
def getType : Value → JType
  | .integer _ => .TINTEGER
  | .uinteger _ => .TUINTEGER
  | .real _ => .TREAL
  | .boolean _ => .TBOOL
  | .string _ => .TSTRING
  | .object _ => .TOBJECT
  | .array _ => .TARRAY
  | .null => .TNULL

/-- Errors raised by Value's accessors and casts.  The source throws
`std::runtime_error` with distinct messages; the spec's taxonomy names them
`TypeMismatch` (from `checkType`) and `CastError` (from the `cast`
specializations).  `indexUB` marks the source's unchecked out-of-range array
access, which is undefined behavior in C++. -/
inductive JErr where
  | typeMismatch
  | castError
  | indexUB
deriving DecidableEq, Repr

/-- Lexicographic order on keys, modelling `std::map`'s `std::string`
comparison (byte-wise less-than). -/
def keyLt : List Char → List Char → Bool
  | [], [] => false
  | [], _ :: _ => true
  | _ :: _, [] => false
  | a :: as, b :: bs => if a < b then true else if b < a then false else keyLt as bs

/-- `std::map::operator[]` — find the entry for `k`, default-inserting a null
Value (keeping the list key-sorted) when absent.  Returns the found/inserted
value together with the possibly-extended map. -/
def objGet : List (List Char × Value) → List Char → Value × List (List Char × Value)
  | [], k => (.null, [(k, .null)])
  | (k', v') :: rest, k =>
    if k = k' then (v', (k', v') :: rest)
    else if keyLt k k' then (.null, (k, .null) :: (k', v') :: rest)
    else
      let (r, rest') := objGet rest k
      (r, (k', v') :: rest')

/-- `Value::getInteger` — `checkType(TINTEGER); return data.integer;`.  In the
inductive model the tag test and the payload access are the single match. -/
def getInteger : Value → Except JErr Int
  | .integer i => .ok i
  | _ => .error .typeMismatch

/-- `Value::getUInteger` — `checkType(TUINTEGER); return data.uinteger;`. -/
def getUInteger : Value → Except JErr Nat
  | .uinteger u => .ok u
  | _ => .error .typeMismatch

/-- `Value::getReal` — `checkType(TREAL); return data.real;`. -/
def getReal : Value → Except JErr Rat
  | .real r => .ok r
  | _ => .error .typeMismatch

/-- `Value::getBool` — `checkType(TBOOL); return data.boolean;`. -/
def getBool : Value → Except JErr Bool
  | .boolean b => .ok b
  | _ => .error .typeMismatch

/-- `Value::getString` — `checkType(TSTRING); return *data.string;`. -/
def getString : Value → Except JErr (List Char)
  | .string s => .ok s
  | _ => .error .typeMismatch

/-- `Value::getMember` — `checkType(TOBJECT); return (*data.object)[key];`.
The map access default-inserts, so the (possibly updated) receiver is
returned alongside the member.  On a tag mismatch `checkType` throws before
any mutation, so the receiver is returned unchanged. -/
def getMember (v : Value) (key : List Char) : Except JErr Value × Value :=
  match v with
  | .object m =>
    let (r, m') := objGet m key
    (.ok r, .object m')
  | _ => (.error .typeMismatch, v)

/-- `Value::getArraySize` — `checkType(TARRAY); return data.array->size();`. -/
def getArraySize : Value → Except JErr Nat
  | .array a => .ok a.length
  | _ => .error .typeMismatch

/-- `Value::getIndex` — `checkType(TARRAY); return (*data.array)[index];`.
The source performs no bounds check; an out-of-range index is undefined
behavior, marked here by `JErr.indexUB`. -/
def getIndex (v : Value) (index : Nat) : Except JErr Value :=
  match v with
  | .array a =>
    match a.get? index with
    | some x => .ok x
    | none => .error .indexUB
  | _ => .error .typeMismatch

/-- The eight getters of the Value class, as one enumeration so that claims
quantifying over "every getter" can be stated uniformly. -/
inductive Getter where
  | gInteger
  | gUInteger
  | gReal
  | gBool
  | gString
  | gMember (key : List Char)
  | gArraySize
  | gIndex (index : Nat)

/-- The tag each getter's `checkType` call expects. -/
def expectedType : Getter → JType
  | .gInteger => .TINTEGER
  | .gUInteger => .TUINTEGER
  | .gReal => .TREAL
  | .gBool => .TBOOL
  | .gString => .TSTRING
  | .gMember _ => .TOBJECT
  | .gArraySize => .TARRAY
  | .gIndex _ => .TARRAY

/-- Run a getter on a Value, keeping only success/failure of the result
(payload types differ across getters) together with the state of the receiver
after the call. -/
def applyGetter : Getter → Value → Except JErr Unit × Value
  | .gInteger, v => ((getInteger v).map fun _ => (), v)
  | .gUInteger, v => ((getUInteger v).map fun _ => (), v)
  | .gReal, v => ((getReal v).map fun _ => (), v)
  | .gBool, v => ((getBool v).map fun _ => (), v)
  | .gString, v => ((getString v).map fun _ => (), v)
  | .gMember k, v =>
    let (r, v') := getMember v k
    (r.map fun _ => (), v')
  | .gArraySize, v => ((getArraySize v).map fun _ => (), v)
  | .gIndex i, v => ((getIndex v i).map fun _ => (), v)

/-- C2: For every pair of a Value tag and a getter among getInteger,
getUInteger, getReal, getBool, getString, getMember, getArraySize, getIndex
whose expected tag differs from that actual tag, calling that getter on a
Value of that tag fails with a TypeMismatch error and leaves the Value
unchanged. -/
theorem c2_getter_type_safety (g : Getter) (v : Value)
    (h : getType v ≠ expectedType g) :
    applyGetter g v = (Except.error JErr.typeMismatch, v) := by
  cases g <;> cases v <;>
    first
      | rfl
      | exact absurd rfl h

/-- Witness for C2 at a concrete input: getInteger on a boolean Value. -/
theorem c2_getter_type_safety_witness :
    getType (Value.boolean true) ≠ expectedType Getter.gInteger ∧
      applyGetter Getter.gInteger (Value.boolean true) =
        (Except.error JErr.typeMismatch, Value.boolean true) :=
  ⟨by decide, c2_getter_type_safety Getter.gInteger (Value.boolean true) (by decide)⟩

/-- Errors raised by `Writer::escapeString` and `Reader::unescapeString`.
Both throw `parser_error`; the spec names the conditions UnsupportedCharacter,
UnsupportedEscape, and (for an unknown escape letter) an invalid-escape
failure. -/
inductive EscErr where
  | unsupportedChar
  | unsupportedEscape
  | invalidEscape
deriving DecidableEq, Repr

/-- The per-character escape table of `Writer::escapeString`: the three
characters echoed after a backslash, and the five control characters with a
letter escape.  `none` for every other character. -/
def escMap (c : Char) : Option (List Char) :=
  if c = '"' ∨ c = '\\' ∨ c = '/' then some ['\\', c]
  else if c = '\x08' then some ['\\', 'b']
  else if c = '\x0c' then some ['\\', 'f']
  else if c = '\n' then some ['\\', 'n']
  else if c = '\r' then some ['\\', 'r']
  else if c = '\t' then some ['\\', 't']
  else none

/-- `Writer::escapeString` — walks the string; each of the eight
directly-escaped characters is replaced by its two-character sequence, any
other control character below 0x20 throws ("Arbitrary unicode escapes not yet
supported"), and everything else is copied verbatim (the source copies
untouched runs with `substr`, which amounts to this per-character map). -/
def escapeString : List Char → Except EscErr (List Char)
  | [] => .ok []
  | c :: rest =>
    match escMap c with
    | some e => (escapeString rest).map fun t => e ++ t
    | none =>
      if c.toNat < 0x20 then .error .unsupportedChar
      else (escapeString rest).map fun t => c :: t

/-- The escape-letter table of `Reader::unescapeString`: what each character
after a backslash unescapes to (`none` for letters with no case). -/
def unescMap (c : Char) : Option Char :=
  if c = '"' ∨ c = '\\' ∨ c = '/' then some c
  else if c = 'b' then some '\x08'
  else if c = 'f' then some '\x0c'
  else if c = 'n' then some '\n'
  else if c = 'r' then some '\r'
  else if c = 't' then some '\t'
  else none

/-- The backslash-processing loop of `Reader::unescapeString` (the branch
taken when the input contains a backslash): text up to each backslash is
copied, the character after the backslash selects the replacement, `u` throws
the unsupported-escape error and any other unknown letter the invalid-escape
error.  A backslash as the final character reads the terminator
(`escaped[pos+1]` is `'\0'`), which hits the `default` branch and throws the
invalid-escape error. -/
def unescapeLoop : List Char → Except EscErr (List Char)
  | [] => .ok []
  | ['\\'] => .error .invalidEscape
  | '\\' :: c :: rest2 =>
    match unescMap c with
    | some u => (unescapeLoop rest2).map fun t => u :: t
    | none => if c = 'u' then .error .unsupportedEscape else .error .invalidEscape
  | c :: rest => (unescapeLoop rest).map fun t => c :: t

/-- `Reader::unescapeString` — if the input contains no backslash it is
returned unchanged (`escaped.find("\\") == npos`), otherwise the
backslash-processing loop runs. -/
def unescapeString (l : List Char) : Except EscErr (List Char) :=
  if l.contains '\\' then unescapeLoop l else .ok l

/-- The eight directly-escaped characters of the Writer's escape table. -/
def directEscapes : List Char := ['"', '\\', '/', '\x08', '\x0c', '\n', '\r', '\t']

/-- The escape letter the Writer emits for each directly-escaped character. -/
def escCode (c : Char) : Char :=
  if c = '\x08' then 'b'
  else if c = '\x0c' then 'f'
  else if c = '\n' then 'n'
  else if c = '\r' then 'r'
  else if c = '\t' then 't'
  else c

theorem escMap_directEscapes {c : Char} (h : c ∈ directEscapes) :
    escMap c = some ['\\', escCode c] ∧ unescMap (escCode c) = some c := by
  simp only [directEscapes, List.mem_cons, List.not_mem_nil, or_false] at h
  rcases h with rfl | rfl | rfl | rfl | rfl | rfl | rfl | rfl <;> decide

theorem escapeString_directEscapes :
    ∀ s : List Char, (∀ c ∈ s, c ∈ directEscapes) →
      escapeString s = .ok (s.flatMap fun c => ['\\', escCode c])
  | [], _ => rfl
  | c :: rest, h => by
    have hc := escMap_directEscapes (h c (List.mem_cons_self c rest))
    have ih := escapeString_directEscapes rest fun x hx => h x (List.mem_cons_of_mem c hx)
    simp [escapeString, hc.1, ih, List.flatMap_cons, Except.map]

theorem unescapeLoop_directEscapes :
    ∀ s : List Char, (∀ c ∈ s, c ∈ directEscapes) →
      unescapeLoop (s.flatMap fun c => ['\\', escCode c]) = .ok s
  | [], _ => rfl
  | c :: rest, h => by
    have hc := escMap_directEscapes (h c (List.mem_cons_self c rest))
    have ih := unescapeLoop_directEscapes rest fun x hx => h x (List.mem_cons_of_mem c hx)
    have hstep : (c :: rest).flatMap (fun c => ['\\', escCode c])
        = '\\' :: escCode c :: rest.flatMap (fun c => ['\\', escCode c]) := by
      rw [List.flatMap_cons]
      rfl
    rw [hstep]
    simp only [unescapeLoop, hc.2, ih, Except.map]

/-- C3: For every string containing only occurrences of the eight
directly-escaped characters, the Reader's unescape applied to the Writer's
escape of the string yields the string back. -/
theorem c3_escape_unescape_inverse (s : List Char)
    (h : ∀ c ∈ s, c ∈ directEscapes) :
    (escapeString s).bind unescapeString = .ok s := by
  rw [escapeString_directEscapes s h]
  show unescapeString (s.flatMap fun c => ['\\', escCode c]) = .ok s
  match s with
  | [] => rfl
  | c :: rest =>
    rw [unescapeString, if_pos]
    · exact unescapeLoop_directEscapes (c :: rest) h
    · simp [List.flatMap_cons]

/-- Witness for C3 at a concrete input: the string made of a quote, a
backslash and a newline. -/
theorem c3_escape_unescape_inverse_witness :
    (escapeString ['"', '\\', '\n']).bind unescapeString = .ok ['"', '\\', '\n'] :=
  c3_escape_unescape_inverse ['"', '\\', '\n'] (by decide)

/-- C10: For every string that contains no backslash character, the Reader's
unescapeString returns its input unchanged and raises no error, whatever the
other characters are. -/
theorem c10_unescape_identity_without_backslash (l : List Char)
    (h : l.contains '\\' = false) :
    unescapeString l = .ok l := by
  rw [unescapeString, h]
  rfl

/-- Witness for C10 at a concrete input: a backslash-free string containing a
quote, a control character and a letter. -/
theorem c10_unescape_identity_without_backslash_witness :
    unescapeString ['"', '\x01', 'z'] = .ok ['"', '\x01', 'z'] :=
  c10_unescape_identity_without_backslash ['"', '\x01', 'z'] (by decide)

/-- Wrap an integer to `unsigned int`, modelling the C cast
`(TUInteger)atoi(start)`. -/
def toTUInteger (i : Int) : Nat := (i % 4294967296).toNat

/-- Result of `Reader::readNumber`: either a Value together with the unread
remainder of the buffer, or the thrown `parser_error` (EOF inside a numeric)
with its line and column. -/
inductive NumOut where
  | val (v : Value) (rest : List Char)
  | eofErr (line : Nat) (col : Nat)
deriving Repr

/-- `Reader::readNumber` — the scanning loop, translated cursor-for-cursor.
`tok` is the text between `start` and `cur` (the token that the in-place
terminator write exposes to `atoi`/`atof`), `real`/`exp` are the two flags,
`buf` is the buffer from `cur` on (`[]` stands for the terminator), and
`col` is `cur - lastbr`.  The text-to-number conversions are the
platform routines the source defers to, passed in as `atoi`/`atof`.
The loop is not structurally recursive on the buffer — the `e` case sets
the flag and `break`s out of the `switch` without advancing `cur` — so the
translation is fueled: `none` means the given number of loop iterations did
not complete the scan. -/
def readNumber (atoi : List Char → Int) (atof : List Char → Rat) (line : Nat) :
    Nat → Nat → List Char → Bool → Bool → List Char → Option NumOut
  | 0, _, _, _, _, _ => none
  | fuel + 1, col, tok, real, exp, buf =>
    match buf with
    | [] => some (.eofErr line col)
    | c :: rest =>
      if c = 'e' then
        readNumber atoi atof line fuel col tok real true (c :: rest)
      else if c = 'u' then
        some (.val (.uinteger (toTUInteger (atoi tok))) rest)
      else if c = 'd' then
        some (.val (.real (atof tok)) rest)
      else if c = '.' then
        readNumber atoi atof line fuel (col + 1) (tok ++ [c]) true exp rest
      else if c = '+' ∨ c = '-' ∨ c.isDigit then
        readNumber atoi atof line fuel (col + 1) (tok ++ [c]) real exp rest
      else
        some (.val (if real ∨ exp then .real (atof tok) else .integer (atoi tok))
          (c :: rest))

/-- The `e` case of `readNumber`'s switch never advances the cursor: for any
fuel the scan of a buffer whose next character is `e` does not finish. -/
theorem readNumber_e_diverges (atoi : List Char → Int) (atof : List Char → Rat)
    (line : Nat) :
    ∀ fuel col tok real exp rest,
      readNumber atoi atof line fuel col tok real exp ('e' :: rest) = none
  | 0, _, _, _, _, _ => rfl
  | fuel + 1, col, tok, real, exp, rest => by
    rw [readNumber]
    simp only [if_pos rfl]
    exact readNumber_e_diverges atoi atof line fuel col tok real true rest

/-- C4: the Reader's number scan on the input `1e2` never terminates, for
every fuel and every platform text-to-number conversion: the `e` case records
the exponent flag but never advances the cursor (and `E` is not a case at
all), whereas the claim says the exponent marker is consumed and the token
yields a real Value. -/
theorem c4_readNumber_exponent_loops (atoi : List Char → Int)
    (atof : List Char → Rat) (line fuel : Nat) :
    readNumber atoi atof line fuel 0 [] false false ['1', 'e', '2'] = none := by
  match fuel with
  | 0 => rfl
  | fuel + 1 =>
    rw [readNumber]
    norm_num
    exact readNumber_e_diverges atoi atof line fuel 1 ['1'] false false ['2']

/-- Outcome of the scanning loop of `Reader::readString`: the raw token up to
an unescaped closing quote together with `cur - lastbr` after the quote and
the unread remainder; or the terminator reached (`while (*cur)` fails) with
`cur - lastbr` at that point; or an out-of-bounds read: a backslash directly
before the terminator makes `cur++` skip the terminator, after which the loop
dereferences past the end of the owned buffer (undefined behavior). -/
inductive ScanOut where
  | tok (t : List Char) (colAfter : Nat) (rest : List Char)
  | term (col : Nat)
  | oobRead
deriving DecidableEq, Repr

/-- Prepend a character to the raw token of a completed scan (identity on the
error outcomes). -/
def addTok (c : Char) : ScanOut → ScanOut
  | .tok t col rest => .tok (c :: t) col rest
  | o => o

/-- The scanning loop of `Reader::readString` (after `start = ++cur` has
skipped the opening quote, so `buf` is the buffer from the first content
character and `col` is `cur - lastbr` there; `[]` stands for the
terminator).  A backslash always skips the character after it; an unescaped
`"` closes the token (the source overwrites it with `'\0'`). -/
def readStrScan (col : Nat) : List Char → ScanOut
  | [] => .term col
  | c :: rest =>
    if c = '\\' then
      match rest with
      | [] => .oobRead
      | c2 :: rest2 => addTok '\\' (addTok c2 (readStrScan (col + 2) rest2))
    else if c = '"' then .tok [] (col + 1) rest
    else addTok c (readStrScan (col + 1) rest)

/-- Result of `Reader::readString`: a string Value with the unread remainder,
a thrown `parser_error` with line, column and message, or the undefined
behavior of reading past the buffer. -/
inductive ReadOut where
  | val (v : Value) (rest : List Char)
  | err (line : Nat) (col : Nat) (msg : String)
  | oobRead
deriving Repr

/-- The message of the `parser_error` thrown when `readString` runs out of
buffer. -/
def eofStringMsg : String := "Reached EOF while parsing string"

/-- The messages of the `parser_error`s thrown by `unescapeString`. -/
def escErrMsg : EscErr → String
  | .unsupportedChar => "Arbitrary unicode escapes not yet supported"
  | .unsupportedEscape => "Arbitrary unicode escapes not yet supported"
  | .invalidEscape => "Invalid escape sequence in string"

/-- `Reader::readString` — scan to the unescaped closing quote and unescape
the raw token (`new Value(unescapeString(std::string(start)))`); reaching the
terminator throws the EOF `parser_error` with the current line and
column. -/
def readString (line col : Nat) (buf : List Char) : ReadOut :=
  match readStrScan col buf with
  | .term c => .err line c eofStringMsg
  | .oobRead => .oobRead
  | .tok t c rest =>
    match unescapeString t with
    | .ok s => .val (.string s) rest
    | .error e => .err line c (escErrMsg e)

/-- The claim's scan condition, from the spec's words: the buffer's
terminator is reached before an unescaped closing quote is found (a
backslash skipping the following character, and a backslash directly before
the terminator skipping the terminator itself). -/
def reachesTerm : List Char → Bool
  | [] => true
  | c :: rest =>
    if c = '\\' then
      match rest with
      | [] => false
      | _ :: rest2 => reachesTerm rest2
    else if c = '"' then false
    else reachesTerm rest

theorem readStrScan_term :
    ∀ buf : List Char, reachesTerm buf = true →
      ∀ col, readStrScan col buf = ScanOut.term (col + buf.length)
  | [], _, col => by simp [readStrScan]
  | c :: rest, h, col => by
    by_cases hb : c = '\\'
    · subst hb
      cases rest with
      | nil => simp [reachesTerm] at h
      | cons c2 rest2 =>
        have h2 : reachesTerm rest2 = true := by simpa [reachesTerm] using h
        have ih := readStrScan_term rest2 h2 (col + 2)
        simp [readStrScan, ih, addTok]
        omega
    · by_cases hq : c = '"'
      · subst hq
        rw [reachesTerm.eq_def] at h
        simp at h
      · have h1 : reachesTerm rest = true := by
          rw [reachesTerm.eq_def] at h
          simpa [hb, hq] using h
        have ih := readStrScan_term rest h1 (col + 1)
        rw [readStrScan.eq_def]
        simp [hb, hq, ih, addTok]
        try omega

/-- C7: during the Reader's string scan a backslash always skips the
following character (whatever it is — the skipped character is tokenized, not
interpreted), and whenever the buffer's terminator is reached before an
unescaped closing quote the parse fails with the UnterminatedString
`parser_error` carrying the current line and the column of the terminator,
rather than returning a value. -/
theorem c7_readString_unterminated (line col : Nat) (buf : List Char)
    (c : Char) (rest : List Char) :
    readStrScan col ('\\' :: c :: rest) = addTok '\\' (addTok c (readStrScan (col + 2) rest))
    ∧ (reachesTerm buf = true →
        readString line col buf = ReadOut.err line (col + buf.length) eofStringMsg) := by
  refine ⟨rfl, fun h => ?_⟩
  rw [readString, readStrScan_term buf h col]

/-- Witness for C7 at concrete inputs: a backslash skips even a closing
quote, and the unterminated buffer `a` (no closing quote before the
terminator) fails with the EOF error at line 1, column 1. -/
theorem c7_readString_unterminated_witness :
    readStrScan 0 ['\\', '"'] = addTok '\\' (addTok '"' (readStrScan 2 []))
    ∧ readString 1 0 ['a'] = ReadOut.err 1 1 eofStringMsg :=
  ⟨(c7_readString_unterminated 1 0 ['a'] '"' []).1,
    (c7_readString_unterminated 1 0 ['a'] '"' []).2 (by decide)⟩

/-- `Value::cast<int>` — "Only integer Values can be cast as ints": returns
the integer payload for the TINTEGER tag and throws for every other tag. -/
def castInt : Value → Except JErr Int
  | .integer i => .ok i
  | _ => .error .castError

/-- `Value::cast<double>` — "All numerics can be cast to doubles": widens the
TUINTEGER, TINTEGER and TREAL payloads and throws for every other tag. -/
def castDouble : Value → Except JErr Rat
  | .uinteger u => .ok (u : Rat)
  | .integer i => .ok (i : Rat)
  | .real r => .ok r
  | _ => .error .castError

/-- C8 counterexample: the cast to int — a numeric coercion — of a Value
with the real tag (one of the three numeric tags) fails with CastError,
where the claim says every numeric coercion succeeds on every numeric
tag. -/
theorem c8_cast_counterexample :
    getType (Value.real 1) = JType.TREAL ∧
      castInt (Value.real 1) = Except.error JErr.castError :=
  ⟨rfl, rfl⟩

/-- C8 amended: the cast to double succeeds exactly on the three numeric
tags (widening the stored number) and fails with CastError on every other
tag, while the cast to int succeeds exactly on the integer tag and fails
with CastError on every other tag, the other numeric tags included. -/
theorem c8_cast_amended (v : Value) :
    ((getType v = JType.TINTEGER ∨ getType v = JType.TUINTEGER ∨
        getType v = JType.TREAL) → ∃ r, castDouble v = .ok r)
    ∧ (¬(getType v = JType.TINTEGER ∨ getType v = JType.TUINTEGER ∨
        getType v = JType.TREAL) → castDouble v = .error .castError)
    ∧ (getType v = JType.TINTEGER → ∃ i, castInt v = .ok i)
    ∧ (getType v ≠ JType.TINTEGER → castInt v = .error .castError) := by
  cases v <;>
    refine ⟨fun h => ?_, fun h => ?_, fun h => ?_, fun h => ?_⟩ <;>
    first
      | exact ⟨_, rfl⟩
      | rfl
      | simp [getType] at h

/-- Witness for C8 amended at concrete inputs: a real Value widens to double
but fails the int cast; a boolean Value fails both casts. -/
theorem c8_cast_amended_witness :
    (∃ r, castDouble (Value.real 2) = .ok r)
    ∧ castInt (Value.real 2) = Except.error JErr.castError
    ∧ castDouble (Value.boolean true) = Except.error JErr.castError :=
  ⟨(c8_cast_amended (Value.real 2)).1 (Or.inr (Or.inr rfl)),
    (c8_cast_amended (Value.real 2)).2.2.2 (by decide),
    (c8_cast_amended (Value.boolean true)).2.1 (by decide)⟩

mutual

/-- `Writer::writeValue` — the recursive serializer, translated case for case
from the `switch (value->type)`.  Double formatting (`out << value->data.real`,
the platform's default text form) is passed in as `fmtReal`; integer and
unsigned formatting is decimal text.  The switch has no `TBOOL` case and no
`default`, so a boolean Value produces no output.  String escaping can throw,
hence the `Except`. -/
def writeValue (fmtReal : Rat → List Char) : Value → Except EscErr (List Char)
  | .integer i => .ok (toString i).toList
  | .uinteger u => .ok ((toString u).toList ++ ['u'])
  | .real r => .ok (fmtReal r)
  | .string s => escapeString s
  | .object m => do
    let body ← writeEntries fmtReal m
    .ok ('\x7b' :: '\n' :: (body ++ ['\x7d']))
  | .array a => do
    let body ← writeElems fmtReal a
    .ok ('[' :: (body ++ [']']))
  | .null => .ok ['N', 'U', 'L', 'L']
  | .boolean _ => .ok []

/-- The object loop of `writeValue`: `"key" : <value>,\n` for every entry
(trailing comma included). -/
def writeEntries (fmtReal : Rat → List Char) :
    List (List Char × Value) → Except EscErr (List Char)
  | [] => .ok []
  | (k, v) :: rest => do
    let s ← writeValue fmtReal v
    let r ← writeEntries fmtReal rest
    .ok ('"' :: (k ++ ('"' :: ' ' :: ':' :: ' ' :: (s ++ (',' :: '\n' :: r)))))

/-- The array loop of `writeValue`: each element followed by `, `. -/
def writeElems (fmtReal : Rat → List Char) : List Value → Except EscErr (List Char)
  | [] => .ok []
  | v :: rest => do
    let s ← writeValue fmtReal v
    let r ← writeElems fmtReal rest
    .ok (s ++ (',' :: ' ' :: r))

end

/-- A concrete stand-in for the platform's double formatting, for closed
statements whose result cannot depend on it. -/
def fmtReal0 : Rat → List Char := fun _ => []

/-- C9 counterexample: serializing the boolean Value `true` emits nothing —
the writer's switch has no boolean case — whereas the claim says it emits the
text `true`. -/
theorem c9_writer_bool_counterexample :
    writeValue fmtReal0 (Value.boolean true) = .ok []
    ∧ (Except.ok ['t', 'r', 'u', 'e'] : Except EscErr (List Char)) ≠ .ok [] := by
  refine ⟨rfl, fun h => ?_⟩
  injection h with h
  exact List.noConfusion h

/-- C9 amended: for every Value whose tag is boolean, the Writer's
serialization emits no output at all (the boolean case is absent from the
writer's switch), whatever the payload and the platform's double
formatting. -/
theorem c9_writer_bool_amended (fmtReal : Rat → List Char) (b : Bool) :
    writeValue fmtReal (Value.boolean b) = .ok [] := rfl

/-- The tag-and-refcount state of a Value handle (`Value::type` and whether
`Value::refcount` is a null pointer).  The payload union is abstracted away:
the claims about `reset`, `checkTypeReset` and the setters concern only the
tag and the presence of the reference count.  (After `checkTypeReset`'s
`reset(TOBJECT)` the setters write the union through the wrong member, which
is undefined behavior in C++ but touches neither field modelled here.) -/
structure VMeta where
  tag : JType
  rc : Bool
deriving DecidableEq, Repr, Fintype

/-- `Value::reset(Type)` (json.cc) — `if (refcount) decref(); refcount = new
TUInteger(0); this->type = type; init();`.  Whatever `decref` leaves behind is
overwritten: the handle ends with the given tag and a freshly allocated
reference count, for every tag. -/
def reset (_ : VMeta) (t : JType) : VMeta := ⟨t, true⟩

/-- `Value::checkTypeReset` — `if (this->type != type) reset(TOBJECT);`:
on a tag mismatch it resets to the OBJECT tag, not to the requested one. -/
def checkTypeReset (v : VMeta) (t : JType) : VMeta :=
  if v.tag ≠ t then reset v .TOBJECT else v

/-- The eight mutators of the Value class (the five scalar setters — the
boolean one is the `setReal(TBool)` overload — and the three structured
mutators), each reduced to its `checkTypeReset` call: the payload write that
follows touches neither the tag nor the refcount. -/
inductive Mutator where
  | mSetInteger
  | mSetUINteger
  | mSetReal
  | mSetRealBool
  | mSetString
  | mSetMember
  | mSetArraySize
  | mSetIndex
deriving DecidableEq, Repr, Fintype

/-- The target tag each mutator passes to `checkTypeReset`. -/
def targetType : Mutator → JType
  | .mSetInteger => .TINTEGER
  | .mSetUINteger => .TUINTEGER
  | .mSetReal => .TREAL
  | .mSetRealBool => .TBOOL
  | .mSetString => .TSTRING
  | .mSetMember => .TOBJECT
  | .mSetArraySize => .TARRAY
  | .mSetIndex => .TARRAY

/-- Run a mutator's type handling on a handle's tag/refcount state. -/
def applyMutator (m : Mutator) (v : VMeta) : VMeta :=
  checkTypeReset v (targetType m)

/-- C1: the claim says a setter on a Value of a different tag first resets
the Value to the setter's own target tag, so that afterwards the tag equals
the target.  At the failing input — `setInteger` on a default (null) Value —
the code instead leaves the tag OBJECT: `checkTypeReset` calls
`reset(TOBJECT)` regardless of the requested tag. -/
theorem c1_checkTypeReset_resets_to_object :
    applyMutator Mutator.mSetInteger ⟨JType.TNULL, false⟩ = ⟨JType.TOBJECT, true⟩
    ∧ JType.TOBJECT ≠ targetType Mutator.mSetInteger := by decide

/-- The tag/refcount state each Value constructor produces (json.hh 63–77):
the default and scalar constructors leave `refcount` null; the string, object,
array and vector constructors allocate it. -/
inductive Ctor where
  | cDefault
  | cInteger
  | cUInteger
  | cReal
  | cBool
  | cString
  | cObject
  | cArray
  | cVector
deriving DecidableEq, Repr, Fintype

/-- The tag/refcount state produced by each constructor. -/
def ctorMeta : Ctor → VMeta
  | .cDefault => ⟨.TNULL, false⟩
  | .cInteger => ⟨.TINTEGER, false⟩
  | .cUInteger => ⟨.TUINTEGER, false⟩
  | .cReal => ⟨.TREAL, false⟩
  | .cBool => ⟨.TBOOL, false⟩
  | .cString => ⟨.TSTRING, true⟩
  | .cObject => ⟨.TOBJECT, true⟩
  | .cArray => ⟨.TARRAY, true⟩
  | .cVector => ⟨.TARRAY, true⟩

/-- Whether a tag is one of the structured (refcounted) tags. -/
def isStructured : JType → Bool
  | .TSTRING => true
  | .TOBJECT => true
  | .TARRAY => true
  | _ => false

/-- The spec's refcount invariant: a reference count is present iff the tag
is string, object or array. -/
def rcInvariant (v : VMeta) : Prop := v.rc = isStructured v.tag

instance (v : VMeta) : Decidable (rcInvariant v) := by
  unfold rcInvariant
  infer_instance

/-- C6 counterexample: `reset(TNULL)` on a default-constructed (null,
refcount-free) Value — the `reset()` overload does exactly this — leaves the
refcount allocated while the tag is TNULL, where the claim says a Value
produced by any reset(tag) call has a refcount iff the tag is string, object
or array. -/
theorem c6_refcount_iff_counterexample :
    (reset (ctorMeta Ctor.cDefault) JType.TNULL).rc = true
    ∧ isStructured (reset (ctorMeta Ctor.cDefault) JType.TNULL).tag = false := by
  decide

/-- C6 amended: every constructor-produced Value has a reference count iff
its tag is string, object or array, and every setter preserves that
invariant; but `reset(tag)` always installs a reference count, whatever the
tag — so a Value produced by reset with a scalar or null tag carries a
refcount despite the claim's iff. -/
theorem c6_refcount_iff_amended :
    (∀ c : Ctor, rcInvariant (ctorMeta c))
    ∧ (∀ (v : VMeta) (t : JType), (reset v t).rc = true)
    ∧ (∀ (m : Mutator) (v : VMeta), rcInvariant v → rcInvariant (applyMutator m v)) := by
  refine ⟨by decide, fun v t => rfl, ?_⟩
  intro m v h
  by_cases hm : v.tag = targetType m
  · rw [applyMutator, checkTypeReset, if_neg (by simpa using hm)]
    exact h
  · rw [applyMutator, checkTypeReset, if_pos (by simpa using hm)]
    rfl

/-- Witness for C6 amended at concrete inputs: the string constructor
satisfies the invariant, reset to the integer tag installs a refcount, and
`setString` on an integer-tagged Value keeps the invariant. -/
theorem c6_refcount_iff_amended_witness :
    rcInvariant (ctorMeta Ctor.cString)
    ∧ (reset ⟨JType.TNULL, false⟩ JType.TINTEGER).rc = true
    ∧ rcInvariant (applyMutator Mutator.mSetString ⟨JType.TINTEGER, false⟩) :=
  ⟨c6_refcount_iff_amended.1 Ctor.cString,
    c6_refcount_iff_amended.2.1 ⟨JType.TNULL, false⟩ JType.TINTEGER,
    c6_refcount_iff_amended.2.2 Mutator.mSetString ⟨JType.TINTEGER, false⟩ (by decide)⟩

/-- The state of a single Value handle together with the reference-count
cell and structured payload it points at, for the self-assignment scenario
of `Value::operator=` (where source and destination are the same object in
memory, so every field read of `other` sees the mutations already made to
`this`).  `hasRC` is `refcount != NULL`, `count` is `*refcount` when
present, and `live` records whether the structured payload the handle's
union pointer refers to is still allocated. -/
structure SelfState where
  tag : JType
  hasRC : Bool
  count : Nat
  live : Bool
deriving DecidableEq, Repr

/-- `Value::clean` — frees the refcount cell and the structured payload and
returns the handle to the null state. -/
def clean (_ : SelfState) : SelfState := ⟨.TNULL, false, 0, false⟩

/-- `Value::decref` — `if (refcount && !((*refcount)--)) clean();`: the
post-decrement tests the old count, so a sole-owner handle (count 0) cleans
up; otherwise the count drops by one. -/
def decref (s : SelfState) : SelfState :=
  if s.hasRC then
    if s.count = 0 then clean s else { s with count := s.count - 1 }
  else s

/-- `Value::incref` — `if (refcount) (*refcount)++;`. -/
def incref (s : SelfState) : SelfState :=
  if s.hasRC then { s with count := s.count + 1 } else s

/-- `Value::operator=` executed with `other` aliasing `this`: `decref();`
then `data = other.data; type = other.type; refcount = other.refcount;` —
all three reads see the state `decref` (and possibly `clean`) just left in
`this`, so the copies are identities — then `incref();`. -/
def selfAssign (s : SelfState) : SelfState := incref (decref s)

/-- C5: the claim says self-assignment leaves the handle referring to a live
payload with a correct reference count.  At the failing input — a freshly
constructed sole-owner string Value (`*refcount == 0`) assigned to itself —
the code's `decref` runs before the copy, sees the old count 0, and `clean`s:
the payload and refcount are freed and the handle ends null and dead. -/
theorem c5_self_assign_destroys_sole_owner :
    selfAssign ⟨JType.TSTRING, true, 0, true⟩ = ⟨JType.TNULL, false, 0, false⟩
    ∧ (selfAssign ⟨JType.TSTRING, true, 0, true⟩).live = false := by decide

end Fastjson
